import Mathlib

set_option maxRecDepth 8000

/-!
A shallow embedding of the Daily Market Summary agent (`agent.py`).

Market prices are modelled as exact rationals; the 2-decimal rounding
performed by the script (Python `round(x, 2)`) is modelled as
round-half-to-even on the exact value.  Provider calls, chart
rasterisation and SMTP transport are external effects; their outcomes
are passed in as explicit data.

The arithmetic of the program is written with the executable operations
`qadd`, `qsub`, `qmul`, `qdiv` below, which compute on numerators and
denominators (the library's `Rat.add` and friends are `@[irreducible]`,
which would block evaluation inside the kernel); each is proved equal
to the corresponding standard operation on `ℚ`, and the theorems are
stated with the standard operations.
-/

/-- Addition on `ℚ`, computed on numerators and denominators; equals
`a + b` by `qadd_eq`. -/
def qadd (a b : ℚ) : ℚ :=
  Rat.divInt (a.num * (b.den : ℤ) + b.num * (a.den : ℤ)) ((a.den : ℤ) * (b.den : ℤ))

/-- Subtraction on `ℚ`; equals `a - b` by `qsub_eq`. -/
def qsub (a b : ℚ) : ℚ :=
  Rat.divInt (a.num * (b.den : ℤ) - b.num * (a.den : ℤ)) ((a.den : ℤ) * (b.den : ℤ))

/-- Multiplication on `ℚ`; equals `a * b` by `qmul_eq`. -/
def qmul (a b : ℚ) : ℚ :=
  Rat.divInt (a.num * b.num) ((a.den : ℤ) * (b.den : ℤ))

/-- Division on `ℚ` (zero when the divisor is zero, as in `ℚ`); equals
`a / b` by `qdiv_eq`. -/
def qdiv (a b : ℚ) : ℚ :=
  Rat.divInt (a.num * (b.den : ℤ)) ((a.den : ℤ) * b.num)

/-- Round half to even, the rounding mode of Python `round`: the floor
`f` of `x` is kept when the fractional part is below one half, bumped
when above, and ties go to the even neighbour. -/
def roundHalfEven (x : ℚ) : ℤ :=
  let f := Int.fdiv x.num (x.den : ℤ)
  let twiceRem := 2 * (x.num - f * (x.den : ℤ))
  if twiceRem < (x.den : ℤ) then f
  else if (x.den : ℤ) < twiceRem then f + 1
  else if f % 2 = 0 then f else f + 1

/-- Python `round(x, 2)`: round to 2 decimal places. -/
def round2 (x : ℚ) : ℚ := Rat.divInt (roundHalfEven (qmul x 100)) 100

/-- Does the character list start with the pattern? -/
def strStarts : List Char → List Char → Bool
  | _, [] => true
  | [], _ :: _ => false
  | c :: cs, p :: ps => c == p && strStarts cs ps

/-- Does the pattern occur as a contiguous run inside the character
list?  This is the per-alternative substring test performed by pandas
`Series.str.contains`. -/
def strOccurs : List Char → List Char → Bool
  | [], p => strStarts [] p
  | c :: cs, p => strStarts (c :: cs) p || strOccurs cs p

/-- Substring containment on strings. -/
def strContainsStr (s pat : String) : Bool := strOccurs s.data pat.data

/-- One row of the collector's DataFrame (`agent.py` lines 59-66):
columns Index, Symbol, Current, Previous, Change, Change %. -/
structure IndexQuote where
  index : String
  symbol : String
  current : ℚ
  previous : ℚ
  change : ℚ
  changePct : ℚ
deriving DecidableEq

/-- Placeholder row used as the default of `List.getD`; defaults are
never reached on the index ranges we use. -/
def dfltQuote : IndexQuote :=
  { index := "", symbol := "", current := 0, previous := 0, change := 0, changePct := 0 }

/-- Outcome of one `yf.Ticker(symbol).history(period="5d")` provider
call: either a chronological series of closing prices, or a raised
error. -/
inductive FetchOutcome where
  | history (closes : List ℚ)
  | error
deriving DecidableEq

/-- The configured index table `MarketDataCollector.INDICES`
(`agent.py` lines 31-41). -/
def INDICES : List (String × String) :=
  [("Nifty 50", "^NSEI"),
   ("Sensex", "^BSESN"),
   ("Nifty Bank", "^NSEBANK"),
   ("Nifty Next 50", "^NSMIDCP"),
   ("S&P 500", "^GSPC"),
   ("Dow Jones", "^DJI"),
   ("Nasdaq Composite", "^IXIC"),
   ("Russell 2000", "^RUT"),
   ("Nasdaq 100", "^NDX")]

/-- The body of the per-index loop of
`MarketDataCollector.fetch_market_data` (`agent.py` lines 47-72): a
raised provider error is caught and logged (no row); a history with
fewer than 2 points is logged (no row); otherwise current is the last
close, previous the second-to-last, and the four numeric columns are
rounded to 2 decimals before being stored.  The loop has no guard for
a zero previous close: the division is a float division, which yields
an infinity rather than raising, so the row is still appended (in this
rational model the quotient is the junk value 0). -/
def fetchQuote (name symbol : String) (outcome : FetchOutcome) : Option IndexQuote :=
  match outcome with
  | FetchOutcome.error => none
  | FetchOutcome.history closes =>
    if 2 ≤ closes.length then
      let current_price := closes.getD (closes.length - 1) 0
      let previous_close := closes.getD (closes.length - 2) 0
      let change := qsub current_price previous_close
      let pct_change := qmul (qdiv change previous_close) 100
      some { index := name, symbol := symbol,
             current := round2 current_price, previous := round2 previous_close,
             change := round2 change, changePct := round2 pct_change }
    else none

/-- Method `MarketDataCollector.fetch_market_data` (`agent.py` lines 43-74)
as a function of the per-index provider outcomes: the rows of the
returned DataFrame, in configuration order, one per index that
succeeded. -/
def fetch_market_data (cfg : List (String × String × FetchOutcome)) : List IndexQuote :=
  cfg.filterMap (fun e => fetchQuote e.1 e.2.1 e.2.2)

/-- Maximum of a non-empty list of rationals (`Series.max`). -/
def listMaxQ : List ℚ → ℚ
  | [] => 0
  | [x] => x
  | x :: y :: t =>
    let m := listMaxQ (y :: t)
    if x ≤ m then m else x

/-- Minimum of a non-empty list of rationals (`Series.min`). -/
def listMinQ : List ℚ → ℚ
  | [] => 0
  | [x] => x
  | x :: y :: t =>
    let m := listMinQ (y :: t)
    if m ≤ x then m else x

/-- pandas `Series.idxmax` on a default RangeIndex: position of the
first occurrence of the maximum. -/
def idxmaxQ : List ℚ → Nat
  | [] => 0
  | [_] => 0
  | x :: y :: t => if x < listMaxQ (y :: t) then idxmaxQ (y :: t) + 1 else 0

/-- pandas `Series.idxmin`: position of the first occurrence of the
minimum. -/
def idxminQ : List ℚ → Nat
  | [] => 0
  | [_] => 0
  | x :: y :: t => if listMinQ (y :: t) < x then idxminQ (y :: t) + 1 else 0

/-- pandas `Series.mean` on a non-empty series: sum divided by count. -/
def meanQ (l : List ℚ) : ℚ := qdiv (l.foldl qadd 0) ((l.length : ℚ))

/-- The regex `'Nifty|Sensex'` of `agent.py` line 93 applied to an
index display name. -/
def isIndianName (name : String) : Bool :=
  strContainsStr name "Nifty" || strContainsStr name "Sensex"

/-- The regex `'S&P|Dow|Nasdaq|Russell'` of `agent.py` line 94 applied
to an index display name. -/
def isUSName (name : String) : Bool :=
  strContainsStr name "S&P" || strContainsStr name "Dow" ||
  strContainsStr name "Nasdaq" || strContainsStr name "Russell"

/-- The insights dictionary built by `MarketAnalyzer.analyze`
(`agent.py` lines 96-105). -/
structure MarketInsights where
  best_performer : IndexQuote
  worst_performer : IndexQuote
  avg_change : ℚ
  indian_avg : ℚ
  us_avg : ℚ
  positive_count : Nat
  negative_count : Nat
  total_count : Nat
deriving DecidableEq

/-- Placeholder insights record used as the default of `Option.getD`. -/
def insDflt : MarketInsights :=
  { best_performer := dfltQuote, worst_performer := dfltQuote,
    avg_change := 0, indian_avg := 0, us_avg := 0,
    positive_count := 0, negative_count := 0, total_count := 0 }

/-- Method `MarketAnalyzer.analyze` (`agent.py` lines 80-105).  The empty
dictionary returned for an empty DataFrame is modelled as `none`. -/
def analyze (df : List IndexQuote) : Option MarketInsights :=
  if df = [] then none
  else
    some {
      best_performer := df.getD (idxmaxQ (df.map (fun q => q.changePct))) dfltQuote,
      worst_performer := df.getD (idxminQ (df.map (fun q => q.changePct))) dfltQuote,
      avg_change := meanQ (df.map (fun q => q.changePct)),
      indian_avg := if df.filter (fun q => isIndianName q.index) = [] then 0
                    else meanQ ((df.filter (fun q => isIndianName q.index)).map
                      (fun q => q.changePct)),
      us_avg := if df.filter (fun q => isUSName q.index) = [] then 0
                else meanQ ((df.filter (fun q => isUSName q.index)).map
                  (fun q => q.changePct)),
      positive_count := (df.filter (fun q => q.changePct > 0)).length,
      negative_count := (df.filter (fun q => q.changePct < 0)).length,
      total_count := df.length }

/-- The sentiment expression of `agent.py` line 117 (the constant
`mkRat (-3) 10` is `-0.3`). -/
def sentimentLabel (avg : ℚ) : String :=
  if avg > 0 then "positive"
  else if avg < mkRat (-3) 10 then "negative"
  else "mixed"

/-- Python `f"{x:.2f}"` on the exact value: sign, integer digits, a
point, two fractional digits (a negative value rounding to zero keeps
its minus sign, as float formatting does). -/
def fmt2 (x : ℚ) : String :=
  let n := roundHalfEven (qmul x 100)
  let m := n.natAbs
  let sign := if n < 0 ∨ (n = 0 ∧ x < 0) then "-" else ""
  sign ++ toString (m / 100) ++ "." ++
    (if m % 100 < 10 then "0" else "") ++ toString (m % 100)

/-- Python `f"{x:+.2f}"`: as `fmt2` but with an explicit plus sign on
non-negative values. -/
def fmt2plus (x : ℚ) : String :=
  let n := roundHalfEven (qmul x 100)
  let m := n.natAbs
  let sign := if n < 0 ∨ (n = 0 ∧ x < 0) then "-" else "+"
  sign ++ toString (m / 100) ++ "." ++
    (if m % 100 < 10 then "0" else "") ++ toString (m % 100)

/-- Insert a comma after every third character of a reversed digit
string (helper for thousands grouping). -/
def commaRev : List Char → List Char
  | a :: b :: c :: d :: rest => a :: b :: c :: ',' :: commaRev (d :: rest)
  | l => l

/-- Python `f"{x:,.2f}"`: as `fmt2` but with the integer part grouped
in thousands by commas. -/
def fmtComma2 (x : ℚ) : String :=
  let n := roundHalfEven (qmul x 100)
  let m := n.natAbs
  let sign := if n < 0 ∨ (n = 0 ∧ x < 0) then "-" else ""
  sign ++ String.mk (commaRev (toString (m / 100)).data.reverse).reverse ++ "." ++
    (if m % 100 < 10 then "0" else "") ++ toString (m % 100)

/-- Python `"\n".join`. -/
def joinLines : List String → String
  | [] => ""
  | [s] => s
  | s :: t :: ts => s ++ "\n" ++ joinLines (t :: ts)

/-- The fixed fallback sentence of `agent.py` line 114. -/
def fallbackSummary : String :=
  "Unable to generate market summary due to data unavailability."

/-- Method `ContentGenerator.generate_summary` (`agent.py` lines 111-156).
The current date rendered by `datetime.now().strftime("%B %d, %Y")` is
passed in as `dateStr`. -/
def generate_summary (dateStr : String) (df : List IndexQuote)
    (insights : Option MarketInsights) : String :=
  match insights with
  | none => fallbackSummary
  | some ins =>
    if df = [] then fallbackSummary
    else
      joinLines
        (["📊 Market Summary for " ++ dateStr ++ "\n",
          "Markets showed " ++ sentimentLabel ins.avg_change ++ " sentiment today with " ++
            toString ins.positive_count ++ " indices up and " ++
            toString ins.negative_count ++ " down."]
         ++ (if ins.indian_avg ≠ 0 then
              ["Indian markets " ++ (if ins.indian_avg > 0 then "gained" else "declined") ++
               " with an average change of " ++ fmt2 ins.indian_avg ++ "%."]
             else [])
         ++ (if ins.us_avg ≠ 0 then
              ["US markets " ++ (if ins.us_avg > 0 then "advanced" else "retreated") ++
               " with an average change of " ++ fmt2 ins.us_avg ++ "%."]
             else [])
         ++ ["\n🔥 Top Performer: " ++ ins.best_performer.index ++
               " (+" ++ fmt2 ins.best_performer.changePct ++ "%)",
             "📉 Worst Performer: " ++ ins.worst_performer.index ++
               " (" ++ fmt2 ins.worst_performer.changePct ++ "%)"])

/-- The table header markup of `agent.py` lines 163-174. -/
def tableHeader : String :=
  "\n        <table style=\"border-collapse: collapse; width: 100%; margin: 20px 0;\">\n            <thead>\n                <tr style=\"background-color: #2c3e50; color: white;\">\n                    <th style=\"padding: 12px; text-align: left; border: 1px solid #ddd;\">Index</th>\n                    <th style=\"padding: 12px; text-align: right; border: 1px solid #ddd;\">Current</th>\n                    <th style=\"padding: 12px; text-align: right; border: 1px solid #ddd;\">Change</th>\n                    <th style=\"padding: 12px; text-align: right; border: 1px solid #ddd;\">Change %</th>\n                </tr>\n            </thead>\n            <tbody>\n        "

/-- One table row (`agent.py` lines 176-191): colour and glyph by the
sign of Change %, absolute change, signed percent. -/
def tableRow (q : IndexQuote) : String :=
  let color := if q.changePct > 0 then "#27ae60"
               else if q.changePct < 0 then "#e74c3c" else "#95a5a6"
  let arrow := if q.changePct > 0 then "▲"
               else if q.changePct < 0 then "▼" else "•"
  "\n                <tr style=\"border-bottom: 1px solid #ddd;\">\n                    <td style=\"padding: 10px; border: 1px solid #ddd;\">" ++
    q.index ++
    "</td>\n                    <td style=\"padding: 10px; text-align: right; border: 1px solid #ddd;\">" ++
    fmtComma2 q.current ++
    "</td>\n                    <td style=\"padding: 10px; text-align: right; border: 1px solid #ddd; color: " ++
    color ++ ";\">\n                        " ++ arrow ++ " " ++
    fmt2 (if q.change < 0 then -q.change else q.change) ++
    "\n                    </td>\n                    <td style=\"padding: 10px; text-align: right; border: 1px solid #ddd; color: " ++
    color ++ "; font-weight: bold;\">\n                        " ++
    fmt2plus q.changePct ++
    "%\n                    </td>\n                </tr>\n            "

/-- The table footer markup of `agent.py` lines 193-196. -/
def tableFooter : String := "\n            </tbody>\n        </table>\n        "

/-- Method `ContentGenerator.create_html_table` (`agent.py` lines 158-197). -/
def create_html_table (df : List IndexQuote) : String :=
  if df = [] then "<p>No data available</p>"
  else tableHeader ++ String.join (df.map tableRow) ++ tableFooter

/-- The data rendered by `ChartGenerator.create_performance_chart`
(`agent.py` lines 203-238): one horizontal bar per row, in row order,
length Change %, coloured green for strictly positive values and red
otherwise.  The rasterisation of these bars to PNG bytes is the
graphics library's concern; a successful render always yields a
non-empty byte string, so presence of the chart is `Option.isSome`. -/
structure Chart where
  bars : List (String × ℚ × String)
deriving DecidableEq

/-- Method `ChartGenerator.create_performance_chart`: `None` for an empty
DataFrame (line 205-206), otherwise the rendered bar chart. -/
def create_performance_chart (df : List IndexQuote) : Option Chart :=
  if df = [] then none
  else some { bars := df.map (fun q =>
    (q.index, q.changePct, if q.changePct > 0 then "#27ae60" else "#e74c3c")) }

/-- The HTML body template of `MarketSummaryAgent.run` (`agent.py`
lines 322-349), split at its three interpolation points.  Piece 1 runs
up to the date of the header block. -/
def bodyPart1 : String :=
  "\n            <html>\n                <body style=\"font-family: Arial, sans-serif; max-width: 800px; margin: 0 auto; padding: 20px;\">\n                    <div style=\"background: linear-gradient(135deg, #667eea 0%, #764ba2 100%); padding: 30px; border-radius: 10px; color: white; margin-bottom: 20px;\">\n                        <h1 style=\"margin: 0; font-size: 28px;\">📈 Daily Market Brief</h1>\n                        <p style=\"margin: 5px 0 0 0; opacity: 0.9;\">"

/-- Body template piece between the date and the text summary. -/
def bodyPart2 : String :=
  "</p>\n                    </div>\n\n                    <div style=\"background-color: #f8f9fa; padding: 20px; border-radius: 8px; margin-bottom: 20px;\">\n                        <pre style=\"font-family: Arial, sans-serif; white-space: pre-wrap; margin: 0;\">"

/-- Body template piece between the text summary and the table. -/
def bodyPart3 : String :=
  "</pre>\n                    </div>\n\n                    <h2 style=\"color: #2c3e50; border-bottom: 2px solid #3498db; padding-bottom: 10px;\">Market Performance</h2>\n                    "

/-- Body template piece after the table; it contains the inline image
element `<img src="cid:chart" ...>` unconditionally. -/
def bodyPart4 : String :=
  "\n\n                    <div style=\"margin: 30px 0;\">\n                        <img src=\"cid:chart\" style=\"max-width: 100%; height: auto; border-radius: 8px; box-shadow: 0 2px 8px rgba(0,0,0,0.1);\">\n                    </div>\n\n                    <div style=\"margin-top: 30px; padding: 20px; background-color: #ecf0f1; border-radius: 8px; text-align: center;\">\n                        <p style=\"margin: 0; color: #7f8c8d; font-size: 14px;\">\n                            Generated by Your Market Summary Agent 🤖<br>\n                            Have a great trading day!\n                        </p>\n                    </div>\n                </body>\n            </html>\n            "

/-- The assembled HTML body: the f-string of `agent.py` lines 322-349.
Its interpolations are the long date, the text summary and the table;
the chart is not an input of the template. -/
def html_body (dateLong text_summary html_table : String) : String :=
  bodyPart1 ++ dateLong ++ bodyPart2 ++ text_summary ++ bodyPart3 ++ html_table ++ bodyPart4

/-- The inline image element of `agent.py` line 338. -/
def imgTag : String := "<img src=\"cid:chart\""

/-- Does the markup contain the inline image element? -/
def hasImg (s : String) : Bool := strOccurs s.data imgTag.data

/-- The MIME message assembled by `EmailNotifier.send_email`
(`agent.py` lines 252-269): an HTML part, and an attached image part
tagged `Content-ID: <chart>` exactly when chart data is present. -/
structure EmailMessage where
  subject : String
  htmlPart : String
  imagePart : Option Chart

/-- Message assembly of `agent.py` lines 253-269 (`if chart_data:`
attaches the image part). -/
def build_message (subject html_content : String) (chart_data : Option Chart) : EmailMessage :=
  { subject := subject, htmlPart := html_content,
    imagePart := match chart_data with
      | some c => some c
      | none => none }

/-- Inputs of one `MarketSummaryAgent.run` invocation: the provider
outcome per configured index, the three date renderings, whether chart
rasterisation raises, and whether SMTP transport succeeds. -/
structure RunEnv where
  cfg : List (String × String × FetchOutcome)
  dateSummary : String
  dateLong : String
  dateSubject : String
  chartOk : Bool
  deliverOk : Bool

/-- The arguments of the one `send_email` call of `agent.py` lines
353-358 (the recipient list is forwarded unchanged and carries no
logic, so it is not modelled). -/
structure EmailCall where
  subject : String
  body : String
  chart : Option Chart

/-- Placeholder call record used as the default of `Option.getD`. -/
def dfltCall : EmailCall := { subject := "", body := "", chart := none }

/-- Method `MarketSummaryAgent.run` (`agent.py` lines 300-367).  Returns the
boolean outcome together with the `send_email` call if one was made.
An empty DataFrame returns `False` before any content is generated
(lines 307-309).  A raised chart error (`chartOk = false`) propagates
to the boundary handler of lines 365-367, which logs and returns
`False`: no document is assembled and no delivery is attempted.
`send_email` returns the transport outcome, `False` on any exception
(lines 284-286). -/
def run (env : RunEnv) : Bool × Option EmailCall :=
  let df := fetch_market_data env.cfg
  if df = [] then (false, none)
  else
    let insights := analyze df
    let text_summary := generate_summary env.dateSummary df insights
    let html_table := create_html_table df
    if env.chartOk then
      let chart_data := create_performance_chart df
      let body := html_body env.dateLong text_summary html_table
      let subject := "Daily Market Brief – " ++ env.dateSubject
      (env.deliverOk, some { subject := subject, body := body, chart := chart_data })
    else
      (false, none)

/-- The quotes of the specification's worked scenario: Nifty 50 rises
from 98 to 100, Sensex falls from 205 to 200. -/
def scenarioCfg : List (String × String × FetchOutcome) :=
  [("Nifty 50", "^NSEI", FetchOutcome.history [98, 100]),
   ("Sensex", "^BSESN", FetchOutcome.history [205, 200])]

/-- The DataFrame of the worked scenario. -/
def df0 : List IndexQuote := fetch_market_data scenarioCfg

/-- A quote whose display name matches the keyword lists of both
regions. -/
def quoteND : IndexQuote :=
  { index := "Nifty Dow", symbol := "X", current := 0, previous := 0, change := 0,
    changePct := 2 }

/-- A run with one healthy index in which chart rasterisation raises. -/
def env0 : RunEnv :=
  { cfg := [("Nifty 50", "^NSEI", FetchOutcome.history [98, 100])],
    dateSummary := "October 10, 2025", dateLong := "Friday, October 10, 2025",
    dateSubject := "10 Oct 2025", chartOk := false, deliverOk := true }

/-- A healthy run: one index with sufficient history, chart renders,
transport succeeds. -/
def env1 : RunEnv :=
  { cfg := [("Nifty 50", "^NSEI", FetchOutcome.history [98, 100])],
    dateSummary := "October 10, 2025", dateLong := "Friday, October 10, 2025",
    dateSubject := "10 Oct 2025", chartOk := true, deliverOk := true }

/-- A run in which every configured index fails: one provider error,
one single-point history. -/
def envFail : RunEnv :=
  { cfg := [("Nifty 50", "^NSEI", FetchOutcome.error),
            ("Sensex", "^BSESN", FetchOutcome.history [100])],
    dateSummary := "October 10, 2025", dateLong := "Friday, October 10, 2025",
    dateSubject := "10 Oct 2025", chartOk := true, deliverOk := true }

/-- The row the collector stores for prices 1.006 then 1.014: after
per-field rounding the stored Change (0.01) differs from the stored
Current minus the stored Previous (1.01 − 1.01 = 0). -/
def rQuote : IndexQuote :=
  (fetchQuote "Nifty 50" "^NSEI"
    (FetchOutcome.history [mkRat 1006 1000, mkRat 1014 1000])).getD dfltQuote

theorem qadd_eq (a b : ℚ) : qadd a b = a + b := by
  have ha : ((a.den : ℤ) : ℚ) ≠ 0 := by
    exact_mod_cast Nat.cast_ne_zero.mpr a.den_nz
  have hb : ((b.den : ℤ) : ℚ) ≠ 0 := by
    exact_mod_cast Nat.cast_ne_zero.mpr b.den_nz
  rw [qadd, Rat.divInt_eq_div]
  conv_rhs => rw [← Rat.num_div_den a, ← Rat.num_div_den b]
  push_cast
  rw [div_add_div _ _ (by exact_mod_cast ha) (by exact_mod_cast hb)]
  ring_nf

theorem qsub_eq (a b : ℚ) : qsub a b = a - b := by
  have ha : ((a.den : ℚ)) ≠ 0 := Nat.cast_ne_zero.mpr a.den_nz
  have hb : ((b.den : ℚ)) ≠ 0 := Nat.cast_ne_zero.mpr b.den_nz
  rw [qsub, Rat.divInt_eq_div]
  conv_rhs => rw [← Rat.num_div_den a, ← Rat.num_div_den b]
  push_cast
  rw [div_sub_div _ _ ha hb]
  ring_nf

theorem qmul_eq (a b : ℚ) : qmul a b = a * b := by
  rw [qmul, Rat.divInt_eq_div]
  conv_rhs => rw [← Rat.num_div_den a, ← Rat.num_div_den b]
  push_cast
  rw [div_mul_div_comm]

theorem qdiv_eq (a b : ℚ) : qdiv a b = a / b := by
  by_cases hb : b = 0
  · subst hb
    show Rat.divInt (a.num * ((0 : ℚ).den : ℤ)) ((a.den : ℤ) * (0 : ℚ).num) = a / 0
    simp [Rat.divInt]
  · have ha : ((a.den : ℚ)) ≠ 0 := Nat.cast_ne_zero.mpr a.den_nz
    have hbd : ((b.den : ℚ)) ≠ 0 := Nat.cast_ne_zero.mpr b.den_nz
    have hbn : ((b.num : ℚ)) ≠ 0 := by
      exact_mod_cast Rat.num_ne_zero.mpr hb
    rw [qdiv, Rat.divInt_eq_div]
    conv_rhs => rw [← Rat.num_div_den a, ← Rat.num_div_den b]
    push_cast
    field_simp

/-- The constant `-0.3` of `agent.py` line 117. -/
theorem mkRat_neg3_10 : (mkRat (-3) 10 : ℚ) = -(3/10 : ℚ) := by
  rw [Rat.mkRat_eq_div]
  push_cast
  ring

theorem stringDataAppend (a b : String) : (a ++ b).data = a.data ++ b.data := rfl

theorem strOccursRight (a b p : List Char) (h : strOccurs b p = true) :
    strOccurs (a ++ b) p = true := by
  induction a with
  | nil => simpa using h
  | cons c cs ih =>
    show strOccurs (c :: (cs ++ b)) p = true
    simp only [strOccurs, Bool.or_eq_true]
    exact Or.inr ih

/-- The assembled body contains the inline image element whatever the
date, summary and table are: the template does not branch on the
chart. -/
theorem hasImg_html_body (d s t : String) : hasImg (html_body d s t) = true := by
  show strOccurs (html_body d s t).data imgTag.data = true
  rw [html_body]
  simp only [stringDataAppend, List.append_assoc]
  apply strOccursRight
  apply strOccursRight
  apply strOccursRight
  apply strOccursRight
  apply strOccursRight
  apply strOccursRight
  decide

theorem joinLines_cons (s : String) (l : List String) (h : l ≠ []) :
    joinLines (s :: l) = s ++ "\n" ++ joinLines l := by
  cases l with
  | nil => exact absurd rfl h
  | cons t ts => rfl

/-- The narrative emitted for a non-empty DataFrame carries the
sentence `Markets showed <label> sentiment today with ...` built from
`sentimentLabel`. -/
theorem summary_mentions_sentiment (dateStr : String) (df : List IndexQuote)
    (ins : MarketInsights) (h : df ≠ []) :
    ∃ pre post, generate_summary dateStr df (some ins) =
      pre ++ ("Markets showed " ++ sentimentLabel ins.avg_change ++
        " sentiment today with ") ++ post := by
  simp only [generate_summary]
  rw [if_neg h]
  simp only [List.cons_append, List.nil_append]
  rw [joinLines_cons _ _ (List.cons_ne_nil _ _)]
  rw [joinLines_cons _ _ ?tail]
  case tail =>
    intro heq
    rcases List.append_eq_nil.mp heq with ⟨-, h2⟩
    exact List.cons_ne_nil _ _ h2
  refine ⟨"📊 Market Summary for " ++ dateStr ++ "\n" ++ "\n", ?_, ?_⟩
  · exact toString ins.positive_count ++ " indices up and " ++
      toString ins.negative_count ++ " down." ++ "\n" ++
      joinLines ((if ins.indian_avg ≠ 0 then
          ["Indian markets " ++ (if ins.indian_avg > 0 then "gained" else "declined") ++
           " with an average change of " ++ fmt2 ins.indian_avg ++ "%."] else []) ++
        ((if ins.us_avg ≠ 0 then
          ["US markets " ++ (if ins.us_avg > 0 then "advanced" else "retreated") ++
           " with an average change of " ++ fmt2 ins.us_avg ++ "%."] else []) ++
         ["\n🔥 Top Performer: " ++ ins.best_performer.index ++
            " (+" ++ fmt2 ins.best_performer.changePct ++ "%)",
          "📉 Worst Performer: " ++ ins.worst_performer.index ++
            " (" ++ fmt2 ins.worst_performer.changePct ++ "%)"]))
  · simp only [String.append_assoc, List.append_assoc]

/-- Claim C8: on the empty QuoteSet every downstream component takes
its degenerate branch: the analyzer returns the empty insights, the
narrative composer the fixed fallback sentence, the table renderer the
fixed placeholder, and the chart renderer the absent chart. -/
theorem c8_empty_degenerate (dateStr : String) :
    analyze [] = none ∧
    generate_summary dateStr [] (analyze []) =
      "Unable to generate market summary due to data unavailability." ∧
    create_html_table [] = "<p>No data available</p>" ∧
    create_performance_chart [] = none :=
  ⟨rfl, rfl, rfl, rfl⟩

/-- Claim C2, counterexample: the chart of an empty DataFrame is
absent, yet the body assembled from that run's narrative and table
still contains the inline image element — the template never omits
it. -/
theorem c2_img_always_counterexample :
    create_performance_chart [] = none ∧
    hasImg (html_body "Friday, October 10, 2025"
      (generate_summary "October 10, 2025" [] (analyze []))
      (create_html_table [])) = true :=
  ⟨rfl, hasImg_html_body _ _ _⟩

/-- Claim C2, amended: the assembled body contains the inline image
reference `cid:chart` for every date, narrative and table — the
template of `run` is not a function of the chart bytes at all, so the
image element is present whether or not chart bytes exist. -/
theorem c2_img_amended (dateLong text_summary html_table : String) :
    hasImg (html_body dateLong text_summary html_table) = true :=
  hasImg_html_body dateLong text_summary html_table

/-- Claim C3, counterexample: a run with a non-empty QuoteSet in which
chart rendering raises is aborted: `run` returns `False` and no
delivery is attempted (the claim asserts the document would still be
assembled and delivery attempted). -/
theorem c3_chart_failure_counterexample :
    fetch_market_data env0.cfg ≠ [] ∧ run env0 = (false, none) :=
  ⟨by decide, rfl⟩

/-- Claim C3, amended: a raised chart-rendering error propagates to
the orchestrator's boundary handler, which logs it and returns
FAILURE; no document is assembled and no delivery is attempted. -/
theorem c3_chart_failure_amended (env : RunEnv) (h : env.chartOk = false) :
    run env = (false, none) := by
  by_cases h1 : fetch_market_data env.cfg = [] <;> simp [run, h1, h]

theorem c3_chart_failure_witness : run env0 = (false, none) :=
  c3_chart_failure_amended env0 rfl

/-- Claim C9: when the collector returns an empty DataFrame, `run`
returns FAILURE and the delivery gateway is never invoked. -/
theorem c9_empty_no_delivery (env : RunEnv)
    (h : fetch_market_data env.cfg = []) : run env = (false, none) := by
  simp [run, h]

theorem c9_empty_no_delivery_witness : run envFail = (false, none) :=
  c9_empty_no_delivery envFail (by decide)

/-- Claim C5: the collector is total over per-index outcomes — a
raised provider call or a short history only skips that index, the
loop continues with the remaining indices, and the DataFrame is empty
exactly when every configured index failed. -/
theorem c5_fetch_total (cfg : List (String × String × FetchOutcome)) :
    (fetch_market_data cfg = [] ↔ ∀ e ∈ cfg, fetchQuote e.1 e.2.1 e.2.2 = none) ∧
    (∀ name symbol o rest, fetchQuote name symbol o = none →
      fetch_market_data ((name, symbol, o) :: rest) = fetch_market_data rest) ∧
    (∀ name symbol o, fetchQuote name symbol o = none ↔
      (o = FetchOutcome.error ∨
        ∃ closes, o = FetchOutcome.history closes ∧ closes.length < 2)) := by
  refine ⟨?_, ?_, ?_⟩
  · simp [fetch_market_data, List.filterMap_eq_nil_iff]
  · intro name symbol o rest h
    simp [fetch_market_data, List.filterMap_cons, h]
  · intro name symbol o
    cases o with
    | error => simp [fetchQuote]
    | history closes =>
      by_cases hl : 2 ≤ closes.length
      · simp only [fetchQuote, if_pos hl]
        simp
        omega
      · simp only [fetchQuote, if_neg hl]
        simp
        omega

theorem c5_fetch_total_witness :
    fetch_market_data [("Nifty 50", "^NSEI", FetchOutcome.error),
      ("Sensex", "^BSESN", FetchOutcome.history [100])] = [] :=
  (c5_fetch_total _).1.mpr (by decide)

/-- Claim C4, counterexample: with closes 1.006 and 1.014 the stored
values violate `change == current - previous` (each field is rounded
separately); and with a zero previous close a row is still produced —
the loop has no `previous == 0` guard. -/
theorem c4_rounding_counterexample :
    rQuote.change ≠ rQuote.current - rQuote.previous ∧
    (fetchQuote "Nifty 50" "^NSEI" (FetchOutcome.history [0, 5])).isSome = true := by
  constructor
  · intro hEq
    rw [show rQuote.current = rQuote.previous from by decide, sub_self] at hEq
    exact absurd hEq (by decide)
  · decide

/-- Claim C4, amended: each stored field is the 2-decimal rounding of
the exact quantity computed from the unrounded closes — so the
invariant holds before rounding, not on the stored values — and a row
is produced whenever the history has at least 2 points, with no
`previous == 0` guard. -/
theorem c4_rounding_amended (name symbol : String) (closes : List ℚ) (q : IndexQuote)
    (h : fetchQuote name symbol (FetchOutcome.history closes) = some q) :
    2 ≤ closes.length ∧
    q.current = round2 (closes.getD (closes.length - 1) 0) ∧
    q.previous = round2 (closes.getD (closes.length - 2) 0) ∧
    q.change = round2 (closes.getD (closes.length - 1) 0 -
      closes.getD (closes.length - 2) 0) ∧
    q.changePct = round2 ((closes.getD (closes.length - 1) 0 -
      closes.getD (closes.length - 2) 0) / closes.getD (closes.length - 2) 0 * 100) := by
  by_cases hl : 2 ≤ closes.length
  · simp only [fetchQuote, if_pos hl, Option.some.injEq] at h
    subst h
    refine ⟨hl, rfl, rfl, ?_, ?_⟩
    · show round2 (qsub _ _) = _
      rw [qsub_eq]
    · show round2 (qmul (qdiv (qsub _ _) _) 100) = _
      rw [qsub_eq, qdiv_eq, qmul_eq]
  · simp [fetchQuote, hl] at h

theorem c4_rounding_witness :
    ((fetchQuote "Nifty 50" "^NSEI" (FetchOutcome.history [98, 100])).getD
        dfltQuote).change =
      round2 (([98, 100] : List ℚ).getD (([98, 100] : List ℚ).length - 1) 0 -
        ([98, 100] : List ℚ).getD (([98, 100] : List ℚ).length - 2) 0) :=
  (c4_rounding_amended "Nifty 50" "^NSEI" [98, 100] _ (by rfl)).2.2.2.1

/-- Claim C1: for a non-empty QuoteSet the narrative's sentiment label
is `positive` exactly when the average change is above 0, `negative`
exactly when it is below −0.3, and `mixed` on the whole closed
interval between (the emitted summary carries the label). -/
theorem c1_sentiment_thresholds (dateStr : String) (df : List IndexQuote)
    (ins : MarketInsights) (hdf : df ≠ []) (hins : analyze df = some ins) :
    (sentimentLabel ins.avg_change = "positive" ↔ 0 < ins.avg_change) ∧
    (sentimentLabel ins.avg_change = "negative" ↔ ins.avg_change < -(3/10 : ℚ)) ∧
    (-(3/10 : ℚ) ≤ ins.avg_change → ins.avg_change ≤ 0 →
      sentimentLabel ins.avg_change = "mixed") ∧
    (∃ pre post, generate_summary dateStr df (some ins) =
      pre ++ ("Markets showed " ++ sentimentLabel ins.avg_change ++
        " sentiment today with ") ++ post) := by
  refine ⟨?_, ?_, ?_, summary_mentions_sentiment dateStr df ins hdf⟩
  · unfold sentimentLabel
    by_cases h1 : ins.avg_change > 0
    · rw [if_pos h1]
      exact iff_of_true rfl h1
    · rw [if_neg h1]
      by_cases h2 : ins.avg_change < mkRat (-3) 10
      · rw [if_pos h2]
        exact iff_of_false (by decide) h1
      · rw [if_neg h2]
        exact iff_of_false (by decide) h1
  · unfold sentimentLabel
    by_cases h1 : ins.avg_change > 0
    · rw [if_pos h1]
      refine iff_of_false (by decide) ?_
      intro hc
      rw [← mkRat_neg3_10] at hc
      have hneg : (mkRat (-3) 10 : ℚ) < 0 := by decide
      linarith
    · rw [if_neg h1]
      by_cases h2 : ins.avg_change < mkRat (-3) 10
      · rw [if_pos h2]
        exact iff_of_true rfl (by rw [← mkRat_neg3_10]; exact h2)
      · rw [if_neg h2]
        exact iff_of_false (by decide) (by rw [← mkRat_neg3_10]; exact h2)
  · intro hge hle
    unfold sentimentLabel
    rw [if_neg (not_lt.mpr hle), if_neg (by rw [mkRat_neg3_10]; exact not_lt.mpr hge)]

theorem c1_sentiment_witness :
    sentimentLabel (((analyze df0).getD insDflt).avg_change) = "mixed" :=
  (c1_sentiment_thresholds "October 10, 2025" df0 ((analyze df0).getD insDflt)
    (by decide) (by rfl)).2.2.1
    (by rw [← mkRat_neg3_10]; decide) (by decide)

theorem le_listMaxQ : ∀ (l : List ℚ), ∀ x ∈ l, x ≤ listMaxQ l := by
  intro l
  induction l with
  | nil => intro x hx; exact absurd hx (List.not_mem_nil x)
  | cons a t ih =>
    intro x hx
    cases t with
    | nil =>
      rcases List.mem_cons.mp hx with rfl | h
      · exact le_refl _
      · exact absurd h (List.not_mem_nil x)
    | cons b ts =>
      by_cases hab : a ≤ listMaxQ (b :: ts)
      · simp only [listMaxQ, if_pos hab]
        rcases List.mem_cons.mp hx with rfl | h
        · exact hab
        · exact ih x h
      · simp only [listMaxQ, if_neg hab]
        rcases List.mem_cons.mp hx with rfl | h
        · exact le_refl _
        · exact le_trans (ih x h) (le_of_not_le hab)

theorem idxmaxQ_lt_length : ∀ (l : List ℚ), l ≠ [] → idxmaxQ l < l.length := by
  intro l
  induction l with
  | nil => intro h; exact absurd rfl h
  | cons a t ih =>
    intro _
    cases t with
    | nil => simp [idxmaxQ]
    | cons b ts =>
      by_cases hlt : a < listMaxQ (b :: ts)
      · have hih := ih (List.cons_ne_nil _ _)
        simp only [idxmaxQ, if_pos hlt, List.length_cons] at *
        omega
      · simp [idxmaxQ, hlt]

theorem getD_idxmaxQ : ∀ (l : List ℚ), l ≠ [] → l.getD (idxmaxQ l) 0 = listMaxQ l := by
  intro l
  induction l with
  | nil => intro h; exact absurd rfl h
  | cons a t ih =>
    intro _
    cases t with
    | nil => simp [idxmaxQ, listMaxQ]
    | cons b ts =>
      by_cases hlt : a < listMaxQ (b :: ts)
      · simp only [idxmaxQ, if_pos hlt, List.getD_cons_succ]
        rw [ih (List.cons_ne_nil _ _)]
        simp only [listMaxQ]
        rw [if_pos (le_of_lt hlt)]
      · simp only [idxmaxQ, if_neg hlt, List.getD_cons_zero, listMaxQ]
        by_cases ham : a ≤ listMaxQ (b :: ts)
        · rw [if_pos ham]
          exact le_antisymm ham (not_lt.mp hlt)
        · rw [if_neg ham]

theorem idxmaxQ_first : ∀ (l : List ℚ), ∀ j < idxmaxQ l, l.getD j 0 < listMaxQ l := by
  intro l
  induction l with
  | nil => intro j hj; simp [idxmaxQ] at hj
  | cons a t ih =>
    intro j hj
    cases t with
    | nil => simp [idxmaxQ] at hj
    | cons b ts =>
      by_cases hlt : a < listMaxQ (b :: ts)
      · simp only [idxmaxQ, if_pos hlt] at hj
        have hmax : listMaxQ (a :: b :: ts) = listMaxQ (b :: ts) := by
          simp only [listMaxQ]
          rw [if_pos (le_of_lt hlt)]
        cases j with
        | zero => rw [hmax]; simpa using hlt
        | succ k =>
          rw [hmax]
          simpa using ih k (Nat.lt_of_succ_lt_succ hj)
      · simp only [idxmaxQ, if_neg hlt] at hj
        omega

theorem listMinQ_le : ∀ (l : List ℚ), ∀ x ∈ l, listMinQ l ≤ x := by
  intro l
  induction l with
  | nil => intro x hx; exact absurd hx (List.not_mem_nil x)
  | cons a t ih =>
    intro x hx
    cases t with
    | nil =>
      rcases List.mem_cons.mp hx with rfl | h
      · exact le_refl _
      · exact absurd h (List.not_mem_nil x)
    | cons b ts =>
      by_cases hab : listMinQ (b :: ts) ≤ a
      · simp only [listMinQ, if_pos hab]
        rcases List.mem_cons.mp hx with rfl | h
        · exact hab
        · exact ih x h
      · simp only [listMinQ, if_neg hab]
        rcases List.mem_cons.mp hx with rfl | h
        · exact le_refl _
        · exact le_trans (le_of_not_le hab) (ih x h)

theorem idxminQ_lt_length : ∀ (l : List ℚ), l ≠ [] → idxminQ l < l.length := by
  intro l
  induction l with
  | nil => intro h; exact absurd rfl h
  | cons a t ih =>
    intro _
    cases t with
    | nil => simp [idxminQ]
    | cons b ts =>
      by_cases hlt : listMinQ (b :: ts) < a
      · have hih := ih (List.cons_ne_nil _ _)
        simp only [idxminQ, if_pos hlt, List.length_cons] at *
        omega
      · simp [idxminQ, hlt]

theorem getD_idxminQ : ∀ (l : List ℚ), l ≠ [] → l.getD (idxminQ l) 0 = listMinQ l := by
  intro l
  induction l with
  | nil => intro h; exact absurd rfl h
  | cons a t ih =>
    intro _
    cases t with
    | nil => simp [idxminQ, listMinQ]
    | cons b ts =>
      by_cases hlt : listMinQ (b :: ts) < a
      · simp only [idxminQ, if_pos hlt, List.getD_cons_succ]
        rw [ih (List.cons_ne_nil _ _)]
        simp only [listMinQ]
        rw [if_pos (le_of_lt hlt)]
      · simp only [idxminQ, if_neg hlt, List.getD_cons_zero, listMinQ]
        by_cases ham : listMinQ (b :: ts) ≤ a
        · rw [if_pos ham]
          exact le_antisymm (not_lt.mp hlt) ham
        · rw [if_neg ham]

theorem idxminQ_first : ∀ (l : List ℚ), ∀ j < idxminQ l, listMinQ l < l.getD j 0 := by
  intro l
  induction l with
  | nil => intro j hj; simp [idxminQ] at hj
  | cons a t ih =>
    intro j hj
    cases t with
    | nil => simp [idxminQ] at hj
    | cons b ts =>
      by_cases hlt : listMinQ (b :: ts) < a
      · simp only [idxminQ, if_pos hlt] at hj
        have hmin : listMinQ (a :: b :: ts) = listMinQ (b :: ts) := by
          simp only [listMinQ]
          rw [if_pos (le_of_lt hlt)]
        cases j with
        | zero => rw [hmin]; simpa using hlt
        | succ k =>
          rw [hmin]
          simpa using ih k (Nat.lt_of_succ_lt_succ hj)
      · simp only [idxminQ, if_neg hlt] at hj
        omega

theorem getD_map_pct (l : List IndexQuote) (n : Nat) :
    (l.map (fun q => q.changePct)).getD n 0 = (l.getD n dfltQuote).changePct := by
  induction l generalizing n with
  | nil => simp [dfltQuote]
  | cons a t ih =>
    cases n with
    | zero => simp
    | succ m => simpa using ih m

/-- Claim C6: for a non-empty QuoteSet the insights' best performer
attains the maximum Change % and the worst the minimum, and each is
the first row attaining that extremum in input order. -/
theorem c6_best_worst (df : List IndexQuote) (ins : MarketInsights)
    (hdf : df ≠ []) (hins : analyze df = some ins) :
    (∀ q ∈ df, q.changePct ≤ ins.best_performer.changePct) ∧
    (∀ q ∈ df, ins.worst_performer.changePct ≤ q.changePct) ∧
    (∃ i, i < df.length ∧ df.getD i dfltQuote = ins.best_performer ∧
      ∀ j < i, (df.getD j dfltQuote).changePct < ins.best_performer.changePct) ∧
    (∃ i, i < df.length ∧ df.getD i dfltQuote = ins.worst_performer ∧
      ∀ j < i, ins.worst_performer.changePct < (df.getD j dfltQuote).changePct) := by
  simp only [analyze, if_neg hdf, Option.some.injEq] at hins
  subst hins
  have hne : df.map (fun q => q.changePct) ≠ [] := by
    intro hh
    exact hdf (List.map_eq_nil_iff.mp hh)
  have hbest : ((df.getD (idxmaxQ (df.map (fun q => q.changePct))) dfltQuote)).changePct =
      listMaxQ (df.map (fun q => q.changePct)) := by
    rw [← getD_map_pct, getD_idxmaxQ _ hne]
  have hworst : ((df.getD (idxminQ (df.map (fun q => q.changePct))) dfltQuote)).changePct =
      listMinQ (df.map (fun q => q.changePct)) := by
    rw [← getD_map_pct, getD_idxminQ _ hne]
  refine ⟨?_, ?_, ?_, ?_⟩
  · intro q hq
    show q.changePct ≤ (df.getD (idxmaxQ (df.map (fun q => q.changePct))) dfltQuote).changePct
    rw [hbest]
    exact le_listMaxQ _ _ (List.mem_map_of_mem (fun q => q.changePct) hq)
  · intro q hq
    show (df.getD (idxminQ (df.map (fun q => q.changePct))) dfltQuote).changePct ≤ q.changePct
    rw [hworst]
    exact listMinQ_le _ _ (List.mem_map_of_mem (fun q => q.changePct) hq)
  · refine ⟨idxmaxQ (df.map (fun q => q.changePct)), ?_, rfl, ?_⟩
    · have := idxmaxQ_lt_length _ hne
      simpa using this
    · intro j hj
      show (df.getD j dfltQuote).changePct <
        (df.getD (idxmaxQ (df.map (fun q => q.changePct))) dfltQuote).changePct
      rw [hbest, ← getD_map_pct]
      exact idxmaxQ_first _ j hj
  · refine ⟨idxminQ (df.map (fun q => q.changePct)), ?_, rfl, ?_⟩
    · have := idxminQ_lt_length _ hne
      simpa using this
    · intro j hj
      show (df.getD (idxminQ (df.map (fun q => q.changePct))) dfltQuote).changePct <
        (df.getD j dfltQuote).changePct
      rw [hworst, ← getD_map_pct]
      exact idxminQ_first _ j hj

theorem c6_best_worst_witness :
    (df0.getD 1 dfltQuote).changePct ≤
      (((analyze df0).getD insDflt).best_performer).changePct :=
  (c6_best_worst df0 ((analyze df0).getD insDflt) (by decide) (by rfl)).1
    (df0.getD 1 dfltQuote) (by decide)

/-- Claim C7, counterexample: "Nifty Dow" contains the Indian keyword
"Nifty", yet the quote also contributes to the US average (its name
also contains "Dow"): the two regional classes are not exclusive, so a
quote whose name matches an Indian keyword can still enter the US
average. -/
theorem c7_region_counterexample :
    isIndianName "Nifty Dow" = true ∧
    ((analyze [quoteND]).getD insDflt).us_avg = 2 ∧
    ((analyze [quoteND]).getD insDflt).indian_avg = 2 := by
  refine ⟨by decide, by decide, by decide⟩

/-- Claim C7, amended: classification is case-sensitive substring
matching of the display name against static keyword lists; a name
matching an Indian keyword contributes to the Indian average and one
matching a US keyword to the US average, a regional average with no
matching quotes defaults to 0, and the two classes are exclusive on
the nine configured names but not in general (a name matching keyword
lists of both regions contributes to both averages). -/
theorem c7_region_amended (df : List IndexQuote) (ins : MarketInsights)
    (hins : analyze df = some ins) :
    (df.filter (fun q => isIndianName q.index) = [] → ins.indian_avg = 0) ∧
    (df.filter (fun q => isIndianName q.index) ≠ [] →
      ins.indian_avg = meanQ ((df.filter (fun q => isIndianName q.index)).map
        (fun q => q.changePct))) ∧
    (df.filter (fun q => isUSName q.index) = [] → ins.us_avg = 0) ∧
    (df.filter (fun q => isUSName q.index) ≠ [] →
      ins.us_avg = meanQ ((df.filter (fun q => isUSName q.index)).map
        (fun q => q.changePct))) ∧
    (isIndianName "Nifty Bank" = true ∧ isUSName "Nifty Bank" = false) ∧
    (isUSName "S&P 500" = true ∧ isIndianName "S&P 500" = false) ∧
    (isIndianName "FTSE 100" = false ∧ isUSName "FTSE 100" = false) ∧
    (isIndianName "Nifty Dow" = true ∧ isUSName "Nifty Dow" = true) ∧
    (∀ p ∈ INDICES, isIndianName p.1 = false ∨ isUSName p.1 = false) := by
  have hdf : df ≠ [] := by
    intro hh
    subst hh
    simp [analyze] at hins
  simp only [analyze, if_neg hdf, Option.some.injEq] at hins
  subst hins
  refine ⟨?_, ?_, ?_, ?_, by decide, by decide, by decide, by decide, by decide⟩
  · intro h
    simp [h]
  · intro h
    simp [h]
  · intro h
    simp [h]
  · intro h
    simp [h]

theorem c7_region_witness : isUSName "S&P 500" = true :=
  (c7_region_amended [quoteND] ((analyze [quoteND]).getD insDflt)
    (by rfl)).2.2.2.2.2.1.1

/-- Claim C10: every `send_email` call made by `run` carries a present
chart (the DataFrame is non-empty on that path, so the renderer
returned bars, and a chart failure would have aborted before the
call), so the message always has the attached image part and the body
always has the inline image element — the chart-absent branch of the
gateway is unreachable from `run`. -/
theorem c10_delivery_chart_present (env : RunEnv) (call : EmailCall)
    (h : (run env).2 = some call) :
    call.chart ≠ none ∧
    (build_message call.subject call.body call.chart).imagePart.isSome = true ∧
    hasImg call.body = true := by
  by_cases h1 : fetch_market_data env.cfg = []
  · simp [run, h1] at h
  · cases hc : env.chartOk with
    | false => simp [run, h1, hc] at h
    | true =>
      simp only [run, if_neg h1, hc, if_true] at h
      rw [Option.some.injEq] at h
      subst h
      refine ⟨?_, ?_, ?_⟩
      · show create_performance_chart (fetch_market_data env.cfg) ≠ none
        simp [create_performance_chart, h1]
      · show (build_message _ _ (create_performance_chart
          (fetch_market_data env.cfg))).imagePart.isSome = true
        simp [build_message, create_performance_chart, h1]
      · exact hasImg_html_body _ _ _

theorem c10_delivery_chart_present_witness :
    ((run env1).2.getD dfltCall).chart ≠ none :=
  (c10_delivery_chart_present env1 ((run env1).2.getD dfltCall) (by rfl)).1
